import Mathlib

/-!
Verification of the lecture-notes pipeline's chunking, note-generation
orchestration, model-availability check and cache fingerprinting
(`src/note_generator.py`, `src/utils.py`), as a shallow embedding.

Conventions of the embedding:
* Python dicts become structures; timestamps (Python floats that are only
  copied, compared and floor-divided here) become rationals.
* `NoteGenerator._estimate_tokens` computes `int(len(text.split()) * 1.3)`
  with IEEE doubles; for every word count `n` below `10^15` the double
  computation `int(n * 1.3)` equals exact truncation `13 * n / 10`
  (the double nearest `1.3` exceeds it by under `4.5e-17`, far less than
  the distance from any `13n/10` to the next integer at these magnitudes),
  so the embedding uses exact natural division.
* The Ollama backend is external: a generation call is modelled by an
  oracle `gen : String → String` from prompt to response, and the
  installed-model listing by its result (or the connection failure).
* `hashlib.md5(...).hexdigest()` is external library code, modelled as an
  arbitrary digest oracle `String → String`.
-/

namespace LecturePipeline

/-- Python's `str.split()` whitespace class, restricted to ASCII (the
additional Unicode space code points Python strips play no role here). -/
def pyIsSpace (c : Char) : Bool :=
  c.toNat = 32 || (9 ≤ c.toNat && c.toNat ≤ 13)

/-- The maximal non-whitespace runs of a character sequence, in order:
`str.split()` on the level of code points. -/
def splitWords (l : List Char) : List (List Char) :=
  (l.foldr
    (fun c acc =>
      if pyIsSpace c then [] :: acc
      else
        match acc with
        | [] => [[c]]
        | w :: ws => (c :: w) :: ws)
    []).filter (fun w => w ≠ [])

/-- `len(text.split())`: Python `str.split()` splits on whitespace runs and
discards empty pieces. -/
def wordCount (s : String) : Nat :=
  (splitWords s.data).length

/-- `NoteGenerator._estimate_tokens`: `int(len(text.split()) * 1.3)`,
i.e. truncation of `wordCount * 1.3` (see the float note in the header). -/
def estimate_tokens (s : String) : Nat :=
  13 * wordCount s / 10

/-- A transcript segment as produced by `Transcriber.transcribe`
(`'start'`, `'end'`, `'text'`, optional `'start_formatted'`; the
word-level entries play no role in the claims). -/
structure Segment where
  start : ℚ
  stop : ℚ
  text : String
  start_formatted : Option String := none
deriving DecidableEq

/-- The transcript dict fields the note generator reads
(`'text'` and `'segments'`). -/
structure Transcript where
  text : String
  segments : List Segment
deriving DecidableEq

/-- The chunk dict built by `NoteGenerator._create_chunk_transcript`. -/
structure Chunk where
  text : String
  segments : List Segment
  start_time : ℚ
  end_time : ℚ
deriving DecidableEq

/-- `NoteGenerator._create_chunk_transcript`: `' '.join` of the segment
texts, first segment's start and last segment's end (0 defaults for the
empty list, mirroring the `if segments else 0` guards). -/
def create_chunk_transcript (segments : List Segment) : Chunk :=
  { text := String.intercalate " " (segments.map Segment.text)
  , segments := segments
  , start_time := match segments with
      | [] => 0
      | s :: _ => s.start
  , end_time := match segments.getLast? with
      | none => 0
      | some s => s.stop }

/-- `_chunk_transcript` returns either the original transcript dict
(the no-segments case returns `[transcript]`) or a chunk dict. -/
inductive TranscriptOrChunk where
  | whole (t : Transcript)
  | piece (c : Chunk)
deriving DecidableEq

/-- `x.get('segments', [])` on either dict shape. -/
def TranscriptOrChunk.segments : TranscriptOrChunk → List Segment
  | .whole t => t.segments
  | .piece c => c.segments

/-- `x.get('text', '')` on either dict shape. -/
def TranscriptOrChunk.text : TranscriptOrChunk → String
  | .whole t => t.text
  | .piece c => c.text

/-- `x.get('start_time', 0)`: a plain transcript dict has no such key,
so the default 0 applies. -/
def TranscriptOrChunk.start_time : TranscriptOrChunk → ℚ
  | .whole _ => 0
  | .piece c => c.start_time

/-- `x.get('end_time', 0)`. -/
def TranscriptOrChunk.end_time : TranscriptOrChunk → ℚ
  | .whole _ => 0
  | .piece c => c.end_time

/-- The loop state of `_chunk_transcript`: `chunks`,
`current_chunk_segments`, `current_token_count`. -/
structure ChunkState where
  chunks : List Chunk
  current : List Segment
  tokens : Nat
deriving DecidableEq

/-- One iteration of the `for segment in segments` loop of
`_chunk_transcript`: close the current chunk first when the running count
plus the segment's estimate strictly exceeds `chunk_size` and the current
chunk is non-empty, then append the segment. -/
def chunkStep (chunk_size : Nat) (st : ChunkState) (segment : Segment) : ChunkState :=
  if st.tokens + estimate_tokens segment.text > chunk_size && !st.current.isEmpty then
    { chunks := st.chunks ++ [create_chunk_transcript st.current]
    , current := [segment]
    , tokens := estimate_tokens segment.text }
  else
    { chunks := st.chunks
    , current := st.current ++ [segment]
    , tokens := st.tokens + estimate_tokens segment.text }

/-- The post-loop flush of `_chunk_transcript`
(`if current_chunk_segments: chunks.append(...)`). -/
def chunkFinish (st : ChunkState) : List Chunk :=
  if st.current.isEmpty then st.chunks
  else st.chunks ++ [create_chunk_transcript st.current]

/-- `NoteGenerator._chunk_transcript`. -/
def chunk_transcript (chunk_size : Nat) (t : Transcript) : List TranscriptOrChunk :=
  if t.segments.isEmpty then [TranscriptOrChunk.whole t]
  else
    (chunkFinish (t.segments.foldl (chunkStep chunk_size) ⟨[], [], 0⟩)).map
      TranscriptOrChunk.piece

/-- Python float modulo `x % y` (sign of the divisor): `x - y * (x // y)`. -/
def pymod (x y : ℚ) : ℚ := x - y * (⌊x / y⌋ : ℤ)

/-- `f"{n:02d}"` for the integers produced by `format_timestamp`. -/
def pad2 (n : ℤ) : String :=
  let s := toString n
  if s.length < 2 then "0" ++ s else s

/-- `utils.format_timestamp`: seconds to `MM:SS`, or `HH:MM:SS` once
there is a positive hour count. -/
def format_timestamp (seconds : ℚ) : String :=
  let hours : ℤ := ⌊seconds / 3600⌋
  let minutes : ℤ := ⌊pymod seconds 3600 / 60⌋
  let secs : ℤ := ⌊pymod seconds 60⌋
  if hours > 0 then
    pad2 hours ++ ":" ++ pad2 minutes ++ ":" ++ pad2 secs
  else
    pad2 minutes ++ ":" ++ pad2 secs

/-- One line of `_format_transcript_for_prompt`:
`f"[{timestamp}] {text}"` with
`timestamp = seg.get('start_formatted', format_timestamp(seg.get('start', 0)))`. -/
def formatSegmentLine (seg : Segment) : String :=
  let timestamp := seg.start_formatted.getD (format_timestamp seg.start)
  "[" ++ timestamp ++ "] " ++ seg.text

/-- `NoteGenerator._format_transcript_for_prompt`: newline-joined
timestamped lines, falling back to the raw `text` when there are no
segments. -/
def format_transcript_for_prompt (t : TranscriptOrChunk) : String :=
  if t.segments.isEmpty then t.text
  else String.intercalate "\n" (t.segments.map formatSegmentLine)

/-- `NOTE_PROMPT_TEMPLATE` up to its `transcript` placeholder. -/
def NOTE_PROMPT_TEMPLATE_pre : String :=
  "You are an expert educational note-taker. Given a lecture transcript with timestamps, create comprehensive study notes in Markdown format.\n\n## Instructions:\n1. **Title**: Derive a clear, descriptive title from the content\n2. **Summary**: Write a 2-3 sentence overview of the main topic\n3. **Key Concepts**: Extract the most important concepts as bullet points with brief definitions\n4. **Detailed Notes**: Organize content by topic with section headers. Include timestamps [MM:SS] for key points\n5. **Action Items**: Create 3-5 study questions or exercises based on the content\n\n## Formatting Guidelines:\n- Use proper Markdown headers (##, ###)\n- Keep bullet points concise\n- Include timestamps for important concepts so students can review the video\n- Bold key terms\n- Use code blocks for any technical content or formulas\n\n## Transcript:\n"

/-- `NOTE_PROMPT_TEMPLATE` after its `transcript` placeholder. -/
def NOTE_PROMPT_TEMPLATE_post : String :=
  "\n\n---\nNow generate the study notes:"

/-- `NOTE_PROMPT_TEMPLATE.format(transcript=s)`. -/
def notePrompt (s : String) : String :=
  NOTE_PROMPT_TEMPLATE_pre ++ s ++ NOTE_PROMPT_TEMPLATE_post

/-- `CHUNK_SUMMARY_PROMPT` up to its `transcript` placeholder. -/
def CHUNK_SUMMARY_PROMPT_pre : String :=
  "Summarize this section of a lecture transcript into key points and notes.\nInclude timestamps [MM:SS] for important topics mentioned.\n\nTranscript section:\n"

/-- `CHUNK_SUMMARY_PROMPT` after its `transcript` placeholder. -/
def CHUNK_SUMMARY_PROMPT_post : String :=
  "\n\nProvide a structured summary with:\n- Main topics covered\n- Key definitions or concepts\n- Important details with timestamps"

/-- `CHUNK_SUMMARY_PROMPT.format(transcript=s)`. -/
def chunkSummaryPrompt (s : String) : String :=
  CHUNK_SUMMARY_PROMPT_pre ++ s ++ CHUNK_SUMMARY_PROMPT_post

/-- `MERGE_NOTES_PROMPT` up to its `section_notes` placeholder. -/
def MERGE_NOTES_PROMPT_pre : String :=
  "You are merging notes from different sections of the same lecture into a cohesive document.\n\nCombine these section notes into a single, well-organized study document:\n\n"

/-- `MERGE_NOTES_PROMPT` after its `section_notes` placeholder. -/
def MERGE_NOTES_PROMPT_post : String :=
  "\n\nCreate a unified document with:\n1. **Title** - A descriptive title for the entire lecture\n2. **Summary** - 2-3 sentence overview of all topics\n3. **Table of Contents** - List major sections with timestamps\n4. **Key Concepts** - Combined list of important terms/definitions\n5. **Detailed Notes** - Merged, organized by topic with timestamps\n6. **Action Items** - 3-5 study questions covering the full lecture\n\nEnsure smooth transitions and remove any redundancy."

/-- `MERGE_NOTES_PROMPT.format(section_notes=s)`. -/
def mergeNotesPrompt (s : String) : String :=
  MERGE_NOTES_PROMPT_pre ++ s ++ MERGE_NOTES_PROMPT_post

/-- One observable backend generation call: the prompt sent and whether
`stream=True` was used. -/
structure GenCall where
  prompt : String
  stream : Bool
deriving DecidableEq

/-- The `f"## Section {i+1} [{start_time} - {end_time}]\n\n"` label
prepended to a chunk's response in `_generate_chunked`
(with `start_time`/`end_time` the formatted chunk times). -/
def sectionLabel (i : Nat) (c : TranscriptOrChunk) : String :=
  "## Section " ++ toString (i + 1) ++ " [" ++ format_timestamp c.start_time ++
    " - " ++ format_timestamp c.end_time ++ "]\n\n"

/-- The entry appended to `section_notes` for chunk number `i`. -/
def sectionNote (gen : String → String) (i : Nat) (c : TranscriptOrChunk) : String :=
  sectionLabel i c ++ gen (chunkSummaryPrompt (format_transcript_for_prompt c))

/-- `NoteGenerator._generate_chunked`, with the backend as an oracle
`gen` from prompt to response text.  Returns the final notes together
with the ordered trace of generation calls issued: one non-streaming
call per chunk (in chunk order), then the single merge call (streamed
iff `stream_output`). -/
def generate_chunked (chunk_size : Nat) (gen : String → String)
    (stream_output : Bool) (transcript : Transcript) : String × List GenCall :=
  let chunks := chunk_transcript chunk_size transcript
  let section_notes := chunks.enum.map (fun p => sectionNote gen p.1 p.2)
  let merged_sections := String.intercalate "\n\n---\n\n" section_notes
  let merge_prompt := mergeNotesPrompt merged_sections
  (gen merge_prompt,
    chunks.map
        (fun c => ⟨chunkSummaryPrompt (format_transcript_for_prompt c), false⟩) ++
      [⟨merge_prompt, stream_output⟩])

/-- `NoteGenerator._generate_single`: one generation call on the
single-pass template (streamed iff `stream_output`). -/
def generate_single (gen : String → String) (stream_output : Bool)
    (transcript : Transcript) : String × List GenCall :=
  let prompt := notePrompt (format_transcript_for_prompt (TranscriptOrChunk.whole transcript))
  (gen prompt, [⟨prompt, stream_output⟩])

/-- The strategy decision of `NoteGenerator.generate_notes` (after the
availability check): chunked iff the whole-transcript estimate strictly
exceeds `chunk_size`. -/
def generate_notes_core (chunk_size : Nat) (gen : String → String)
    (stream_output : Bool) (transcript : Transcript) : String × List GenCall :=
  if estimate_tokens transcript.text > chunk_size then
    generate_chunked chunk_size gen stream_output transcript
  else
    generate_single gen stream_output transcript

/-- The base name of a model identifier: `model.split(':')[0]`, i.e. the
code points before the first `':'` (the whole identifier when there is
none). -/
def base_name (model : String) : String :=
  ⟨model.data.takeWhile (fun c => c ≠ ':')⟩

/-- Python `name.startswith(pre)` on the level of code points. -/
def startswith (name pre : String) : Bool :=
  pre.data.isPrefixOf name.data

/-- `NoteGenerator.check_model_available`, successful-listing case:
exact membership, else any installed name `startswith` the requested
identifier's base name. -/
def check_model_available (model : String) (model_names : List String) : Bool :=
  model_names.contains model ||
    model_names.any (fun name => startswith name (base_name model))

/-- The console message printed by `check_model_available` when the
listing call raises: `f"Could not connect to Ollama: {e}"`; `none` when
the listing succeeds. -/
def check_model_log (listing : Except String (List String)) : Option String :=
  match listing with
  | .error e => some ("Could not connect to Ollama: " ++ e)
  | .ok _ => none

/-- `check_model_available` including its `except` clause: a raised
listing call is caught and yields `False`. -/
def check_model_available_full (model : String)
    (listing : Except String (List String)) : Bool :=
  match listing with
  | .error _ => false
  | .ok model_names => check_model_available model model_names

/-- The message of the `RuntimeError` raised by `generate_notes` when the
availability check fails. -/
def model_not_found_msg (model : String) : String :=
  "Model '" ++ model ++ "' not found. Run: ollama pull " ++ model

/-- `NoteGenerator.generate_notes`: raise when the availability check
fails (for any reason, including a connectivity error), otherwise decide
single-pass vs chunked and run it. -/
def generate_notes (chunk_size : Nat) (model : String) (gen : String → String)
    (listing : Except String (List String)) (stream_output : Bool)
    (transcript : Transcript) : Except String (String × List GenCall) :=
  if check_model_available_full model listing then
    .ok (generate_notes_core chunk_size gen stream_output transcript)
  else
    .error (model_not_found_msg model)

/-- Lowercase hex digit. -/
def hexDigit (n : Nat) : Char :=
  if n < 10 then Char.ofNat (48 + n) else Char.ofNat (87 + n)

/-- The quote character Python's `repr` picks for a bytes object: single
quote unless the bytes contain one and contain no double quote. -/
def pyBytesQuote (bs : List Nat) : Char :=
  if bs.contains 39 && !bs.contains 34 then '"' else '\''

/-- How one byte is rendered inside Python's `repr` of a bytes object. -/
def pyByteEscape (q : Char) (b : Nat) : String :=
  if b = 92 then "\\\\"
  else if b = q.toNat then "\\" ++ q.toString
  else if b = 9 then "\\t"
  else if b = 10 then "\\n"
  else if b = 13 then "\\r"
  else if 32 ≤ b && b ≤ 126 then (Char.ofNat b).toString
  else "\\x" ++ (hexDigit (b / 16)).toString ++ (hexDigit (b % 16)).toString

/-- Python's `repr` of a bytes object, which is what an f-string
interpolation `f"{first_chunk}"` produces for `bytes`. -/
def pyBytesRepr (bs : List Nat) : String :=
  let q := pyBytesQuote bs
  "b" ++ q.toString ++ String.join (bs.map (pyByteEscape q)) ++ q.toString

/-- The string `utils.get_file_hash` feeds to the digest:
`f"{first_chunk}{stat.st_size}{stat.st_mtime}"`.  `first_chunk` is the
first 1 MiB of file bytes, `st_size` the byte size, and `st_mtime` is
modelled by the decimal string Python's formatting produces for the
float timestamp (e.g. `"23.0"`). -/
def hash_input (first_chunk : List Nat) (st_size : Nat) (st_mtime : String) : String :=
  pyBytesRepr first_chunk ++ toString st_size ++ st_mtime

/-- `utils.get_file_hash`: digest of `hash_input`, truncated to 12
characters.  `hashlib.md5(...).hexdigest()` is external library code and
is passed as the oracle `md5hex` (in reality a fixed function returning
32 lowercase hex characters). -/
def get_file_hash (md5hex : String → String) (first_chunk : List Nat)
    (st_size : Nat) (st_mtime : String) : String :=
  (md5hex (hash_input first_chunk st_size st_mtime)).take 12

/-- A sample digest oracle used to instantiate `get_file_hash` in
concrete evaluations. -/
def identityDigest (s : String) : String := s

/-- Modelled from the spec (claim C4's reading of `estimated_tokens`):
`round(word_count(text) * 1.3)` with round-to-nearest, so a fractional
part of at least `0.5` rounds up. -/
def spec_estimate_tokens (s : String) : Nat :=
  (13 * wordCount s + 5) / 10

/-- Modelled from the spec (claim C7's reading of the availability
check): exact membership, or equality of base names (tag suffix
stripped) between some installed model and the requested one. -/
def spec_model_available (model : String) (model_names : List String) : Bool :=
  model_names.contains model ||
    model_names.any (fun name => base_name name == base_name model)

/-! Concrete sample inputs used by witnesses and counterexamples. -/

/-- A one-word segment (estimate 1). -/
def segX : Segment := ⟨0, 1, "x", none⟩

/-- A one-word segment (estimate 1). -/
def segY : Segment := ⟨1, 2, "y", none⟩

/-- A one-word segment (estimate 1). -/
def segZ : Segment := ⟨2, 3, "z", none⟩

/-- A five-word segment (estimate `13*5/10 = 6`). -/
def segFive : Segment := ⟨1, 2, "b b b b b", none⟩

/-- A three-segment transcript. -/
def tXYZ : Transcript := ⟨"x y z", [segX, segY, segZ]⟩

/-- A transcript with no segments. -/
def tEmpty : Transcript := ⟨"", []⟩

/-- A transcript whose single segment overflows small budgets. -/
def tBig : Transcript := ⟨"b b b b b", [segFive]⟩

/-- A segment-free transcript whose text estimates to exactly 13 tokens
(10 words). -/
def tTen : Transcript := ⟨"w w w w w w w w w w", []⟩

/-- A constant backend oracle for concrete evaluations. -/
def constGen (_ : String) : String := "summary"

/-! Helper lemmas about the chunking loop. -/

@[simp]
lemma create_chunk_transcript_segments (segs : List Segment) :
    (create_chunk_transcript segs).segments = segs := rfl

@[simp]
lemma segments_piece (c : Chunk) :
    (TranscriptOrChunk.piece c).segments = c.segments := rfl

@[simp]
lemma segments_whole (t : Transcript) :
    (TranscriptOrChunk.whole t).segments = t.segments := rfl

/-- Every chunk the loop emits is `create_chunk_transcript` of some
non-empty segment list. -/
def chunkWF (c : Chunk) : Prop :=
  ∃ segs, segs ≠ [] ∧ c = create_chunk_transcript segs

lemma chunkStep_current_ne (chunk_size : Nat) (st : ChunkState) (seg : Segment) :
    (chunkStep chunk_size st seg).current ≠ [] := by
  unfold chunkStep
  split <;> simp

lemma foldl_chunkStep_current_ne (chunk_size : Nat) (segs : List Segment)
    (st : ChunkState) (h : segs ≠ []) :
    (segs.foldl (chunkStep chunk_size) st).current ≠ [] := by
  induction segs generalizing st with
  | nil => exact absurd rfl h
  | cons seg rest ih =>
    rw [List.foldl_cons]
    by_cases hr : rest = []
    · subst hr
      simpa using chunkStep_current_ne chunk_size st seg
    · exact ih _ hr

lemma chunkStep_wf (chunk_size : Nat) (st : ChunkState) (seg : Segment)
    (h : ∀ c ∈ st.chunks, chunkWF c) :
    ∀ c ∈ (chunkStep chunk_size st seg).chunks, chunkWF c := by
  unfold chunkStep
  split
  · rename_i hcond
    intro c hc
    rcases List.mem_append.mp hc with hc | hc
    · exact h c hc
    · have hcur : st.current ≠ [] := by
        have := (Bool.and_eq_true _ _).mp hcond
        simpa using this.2
      simp only [List.mem_singleton] at hc
      exact ⟨st.current, hcur, hc⟩
  · exact fun c hc => h c hc

lemma foldl_chunkStep_wf (chunk_size : Nat) (segs : List Segment) :
    ∀ st : ChunkState, (∀ c ∈ st.chunks, chunkWF c) →
      ∀ c ∈ (segs.foldl (chunkStep chunk_size) st).chunks, chunkWF c := by
  induction segs with
  | nil => intro st h; simpa using h
  | cons seg rest ih =>
    intro st h
    rw [List.foldl_cons]
    exact ih _ (chunkStep_wf chunk_size st seg h)

lemma chunkFinish_wf (st : ChunkState) (h : ∀ c ∈ st.chunks, chunkWF c) :
    ∀ c ∈ chunkFinish st, chunkWF c := by
  unfold chunkFinish
  split
  · exact h
  · rename_i hne
    intro c hc
    rcases List.mem_append.mp hc with hc | hc
    · exact h c hc
    · simp only [List.mem_singleton] at hc
      exact ⟨st.current, by simpa using hne, hc⟩

lemma chunkStep_flat (chunk_size : Nat) (st : ChunkState) (seg : Segment) :
    ((chunkStep chunk_size st seg).chunks.map Chunk.segments).flatten ++
        (chunkStep chunk_size st seg).current =
      (st.chunks.map Chunk.segments).flatten ++ st.current ++ [seg] := by
  unfold chunkStep
  split <;> simp

lemma foldl_chunkStep_flat (chunk_size : Nat) (segs : List Segment) :
    ∀ st : ChunkState,
      ((segs.foldl (chunkStep chunk_size) st).chunks.map Chunk.segments).flatten ++
          (segs.foldl (chunkStep chunk_size) st).current =
        (st.chunks.map Chunk.segments).flatten ++ st.current ++ segs := by
  induction segs with
  | nil => intro st; simp
  | cons seg rest ih =>
    intro st
    rw [List.foldl_cons, ih (chunkStep chunk_size st seg), chunkStep_flat]
    simp

lemma chunkFinish_flat (st : ChunkState) :
    ((chunkFinish st).map Chunk.segments).flatten =
      (st.chunks.map Chunk.segments).flatten ++ st.current := by
  unfold chunkFinish
  split
  · rename_i h
    simp only [List.isEmpty_iff] at h
    simp [h]
  · simp

/-! ## Claim C1 — chunk coverage and order -/

/-- C1: for a transcript with at least one segment and a positive budget,
the concatenation of the chunks' segment lists, in chunk order, is
exactly the original segment sequence. -/
theorem chunk_coverage (chunk_size : Nat) (t : Transcript)
    (_hk : 0 < chunk_size) (hs : t.segments ≠ []) :
    ((chunk_transcript chunk_size t).map TranscriptOrChunk.segments).flatten =
      t.segments := by
  unfold chunk_transcript
  rw [if_neg (by simpa using hs)]
  rw [List.map_map]
  have h1 := foldl_chunkStep_flat chunk_size t.segments ⟨[], [], 0⟩
  have h2 := chunkFinish_flat (t.segments.foldl (chunkStep chunk_size) ⟨[], [], 0⟩)
  simp only [List.flatten_nil, List.map_nil, List.nil_append] at h1
  have hcomp : TranscriptOrChunk.segments ∘ TranscriptOrChunk.piece = Chunk.segments := by
    funext c; rfl
  rw [hcomp, h2]
  simpa using h1

/-- C1 witness at a 3-segment transcript with budget 1 (three chunks). -/
theorem chunk_coverage_witness :
    (0 < 1 ∧ tXYZ.segments ≠ []) ∧
    ((chunk_transcript 1 tXYZ).map TranscriptOrChunk.segments).flatten =
      tXYZ.segments :=
  ⟨⟨by decide, by decide⟩, chunk_coverage 1 tXYZ (by decide) (by decide)⟩

/-! ## Claim C6 — totality and non-empty chunks -/

/-- C6: the chunker always terminates (it is a total function); with no
segments it returns the whole transcript as a single pseudo-chunk; with
at least one segment it returns at least one chunk and never an empty
one; and a single segment whose estimate exceeds the budget yields
exactly one chunk containing that segment. -/
theorem chunker_total (chunk_size : Nat) (t : Transcript) :
    (t.segments = [] → chunk_transcript chunk_size t = [TranscriptOrChunk.whole t]) ∧
    (t.segments ≠ [] →
      chunk_transcript chunk_size t ≠ [] ∧
      ∀ c ∈ chunk_transcript chunk_size t, c.segments ≠ []) ∧
    (∀ s, t.segments = [s] → estimate_tokens s.text > chunk_size →
      chunk_transcript chunk_size t =
        [TranscriptOrChunk.piece (create_chunk_transcript [s])]) := by
  refine ⟨?_, ?_, ?_⟩
  · intro h
    unfold chunk_transcript
    rw [if_pos (by simp [h])]
  · intro h
    constructor
    · unfold chunk_transcript
      rw [if_neg (by simpa using h)]
      have h3 := foldl_chunkStep_current_ne chunk_size t.segments ⟨[], [], 0⟩ h
      unfold chunkFinish
      rw [if_neg (by simpa using h3)]
      simp
    · intro c hc
      unfold chunk_transcript at hc
      rw [if_neg (by simpa using h)] at hc
      rcases List.mem_map.mp hc with ⟨c', hc', rfl⟩
      have wf := chunkFinish_wf _
        (foldl_chunkStep_wf chunk_size t.segments ⟨[], [], 0⟩ (by simp)) c' hc'
      rcases wf with ⟨segs, hne, rfl⟩
      simpa using hne
  · intro s hs hover
    unfold chunk_transcript
    rw [hs]
    simp [chunkStep, chunkFinish]

/-- C6 witness: the empty-segment, many-segment and single-oversized-
segment cases at concrete transcripts. -/
theorem chunker_total_witness :
    chunk_transcript 5 tEmpty = [TranscriptOrChunk.whole tEmpty] ∧
    chunk_transcript 2 tXYZ ≠ [] ∧
    (tBig.segments = [segFive] ∧ estimate_tokens segFive.text > 2) ∧
    chunk_transcript 2 tBig = [TranscriptOrChunk.piece (create_chunk_transcript [segFive])] :=
  ⟨(chunker_total 5 tEmpty).1 rfl,
    ((chunker_total 2 tXYZ).2.1 (by decide)).1,
    ⟨rfl, by decide⟩,
    (chunker_total 2 tBig).2.2 segFive rfl (by decide)⟩

/-! ## Claim C10 — chunk field invariants -/

/-- C10: every chunk produced by the chunker from a transcript with
segments has text equal to the space-joined segment texts, start time
equal to its first segment's start and end time equal to its last
segment's end. -/
theorem chunk_fields (chunk_size : Nat) (t : Transcript) (c : Chunk)
    (ht : t.segments ≠ [])
    (hc : TranscriptOrChunk.piece c ∈ chunk_transcript chunk_size t) :
    c.text = String.intercalate " " (c.segments.map Segment.text) ∧
    ∃ h : c.segments ≠ [],
      c.start_time = (c.segments.head h).start ∧
      c.end_time = (c.segments.getLast h).stop := by
  unfold chunk_transcript at hc
  rw [if_neg (by simpa using ht)] at hc
  rcases List.mem_map.mp hc with ⟨c', hc', heq⟩
  injection heq with heq
  subst heq
  have wf := chunkFinish_wf _
    (foldl_chunkStep_wf chunk_size t.segments ⟨[], [], 0⟩ (by simp)) c' hc'
  rcases wf with ⟨segs, hne, rfl⟩
  refine ⟨rfl, by simpa using hne, ?_, ?_⟩
  · cases segs with
    | nil => exact absurd rfl hne
    | cons a rest => rfl
  · show (match segs.getLast? with | none => (0 : ℚ) | some s => s.stop) = _
    rw [List.getLast?_eq_getLast_of_ne_nil hne]
    rfl

/-- C10 witness at a one-segment transcript. -/
theorem chunk_fields_witness :
    (Transcript.mk "x" [segX]).segments ≠ [] ∧
    TranscriptOrChunk.piece (create_chunk_transcript [segX]) ∈
      chunk_transcript 1 (Transcript.mk "x" [segX]) ∧
    (create_chunk_transcript [segX]).text =
      String.intercalate " "
        ((create_chunk_transcript [segX]).segments.map Segment.text) :=
  ⟨by decide, by decide,
    (chunk_fields 1 (Transcript.mk "x" [segX]) (create_chunk_transcript [segX])
      (by decide) (by decide)).1⟩

/-! ## Claim C4 — token estimation -/

/-- C4 counterexample: the code truncates instead of rounding.  On a
3-word text the true product is `3.9`; `_estimate_tokens` returns 3,
while the claimed `round(word_count * 1.3)` is 4. -/
theorem estimate_tokens_truncates_counterexample :
    wordCount "a a a" = 3 ∧
    estimate_tokens "a a a" = 3 ∧
    spec_estimate_tokens "a a a" = 4 ∧
    (3 : Nat) ≠ 4 := by
  refine ⟨by decide, by decide, by decide, by decide⟩

/-- C4 (amended): for every text, `_estimate_tokens` returns the
truncation toward zero of `word_count * 1.3`, i.e. the unique `e` with
`10 * e ≤ 13 * word_count < 10 * e + 10`. -/
theorem estimate_tokens_eq_trunc (s : String) :
    10 * estimate_tokens s ≤ 13 * wordCount s ∧
    13 * wordCount s < 10 * estimate_tokens s + 10 := by
  unfold estimate_tokens
  omega

/-! ## Claim C5 — the split condition of the chunking loop -/

/-- C5: one loop iteration of `_chunk_transcript` closes the current
chunk and starts a new one holding the incoming segment exactly when the
running estimate plus the segment's estimate strictly exceeds the budget
and the current chunk is non-empty; otherwise — in particular whenever
the sum equals the budget exactly — it only appends the segment. -/
theorem chunkStep_condition (chunk_size : Nat) (st : ChunkState) (segment : Segment) :
    (st.tokens + estimate_tokens segment.text > chunk_size ∧ st.current ≠ [] →
      chunkStep chunk_size st segment =
        ⟨st.chunks ++ [create_chunk_transcript st.current], [segment],
          estimate_tokens segment.text⟩) ∧
    (st.tokens + estimate_tokens segment.text ≤ chunk_size ∨ st.current = [] →
      chunkStep chunk_size st segment =
        ⟨st.chunks, st.current ++ [segment], st.tokens + estimate_tokens segment.text⟩) := by
  constructor
  · rintro ⟨h1, h2⟩
    simp only [chunkStep]
    rw [if_pos]
    simp [h1, h2]
  · intro h
    simp only [chunkStep]
    rw [if_neg]
    rcases h with h | h
    · simp [Nat.not_lt_of_le h]
    · simp [h]

/-- C5 witness: at budget 10 with 5 running tokens and a non-empty
current chunk, a 6-token segment forces a split; at budget 11 the sum is
exactly the budget and no split occurs. -/
theorem chunkStep_condition_witness :
    (5 + estimate_tokens segFive.text > 10 ∧ [segX] ≠ ([] : List Segment)) ∧
    chunkStep 10 ⟨[], [segX], 5⟩ segFive =
      ⟨[create_chunk_transcript [segX]], [segFive], estimate_tokens segFive.text⟩ ∧
    5 + estimate_tokens segFive.text ≤ 11 ∧
    chunkStep 11 ⟨[], [segX], 5⟩ segFive =
      ⟨[], [segX, segFive], 5 + estimate_tokens segFive.text⟩ :=
  ⟨⟨by decide, by decide⟩,
    (chunkStep_condition 10 ⟨[], [segX], 5⟩ segFive).1 ⟨by decide, by decide⟩,
    by decide,
    (chunkStep_condition 11 ⟨[], [segX], 5⟩ segFive).2 (Or.inl (by decide))⟩

/-! ## Claim C2 — the chunked generation pass -/

/-- C2: the chunked pass issues one non-streaming chunk-summary call per
chunk, in chunk order, then exactly one merge call (streamed iff
requested) whose prompt is the merge template around the
order-preserving concatenation of the section notes; the section note of
chunk `i` is its response labelled with chunk index `i+1` and its
formatted time range. -/
theorem chunked_pass_trace (chunk_size : Nat) (gen : String → String)
    (stream_output : Bool) (t : Transcript) :
    (generate_chunked chunk_size gen stream_output t).2 =
      (chunk_transcript chunk_size t).map
          (fun c => ⟨chunkSummaryPrompt (format_transcript_for_prompt c), false⟩) ++
        [⟨mergeNotesPrompt (String.intercalate "\n\n---\n\n"
            ((chunk_transcript chunk_size t).enum.map fun p => sectionNote gen p.1 p.2)),
          stream_output⟩] ∧
    (generate_chunked chunk_size gen stream_output t).2.length =
      (chunk_transcript chunk_size t).length + 1 ∧
    (∀ call ∈ (generate_chunked chunk_size gen stream_output t).2.dropLast,
      call.stream = false) ∧
    ((chunk_transcript chunk_size t).enum.map fun p => sectionNote gen p.1 p.2).length =
      (chunk_transcript chunk_size t).length ∧
    (∀ i (h : i < (chunk_transcript chunk_size t).length),
      ((chunk_transcript chunk_size t).enum.map fun p => sectionNote gen p.1 p.2).get
          ⟨i, by simpa using h⟩ =
        sectionLabel i ((chunk_transcript chunk_size t).get ⟨i, h⟩) ++
          gen (chunkSummaryPrompt (format_transcript_for_prompt
            ((chunk_transcript chunk_size t).get ⟨i, h⟩)))) := by
  refine ⟨rfl, ?_, ?_, ?_, ?_⟩
  · simp [generate_chunked]
  · intro call hcall
    have htr : (generate_chunked chunk_size gen stream_output t).2.dropLast =
        (chunk_transcript chunk_size t).map
          (fun c => ⟨chunkSummaryPrompt (format_transcript_for_prompt c), false⟩) := by
      show (List.map _ _ ++ [_]).dropLast = _
      simp
    rw [htr] at hcall
    rcases List.mem_map.mp hcall with ⟨c, _, rfl⟩
    rfl
  · simp
  · intro i h
    simp [List.get_eq_getElem, sectionNote]

/-- C2 witness at a transcript producing two chunks. -/
theorem chunked_pass_trace_witness :
    (generate_chunked 2 constGen true tXYZ).2.length =
      (chunk_transcript 2 tXYZ).length + 1 ∧
    0 < (chunk_transcript 2 tXYZ).length ∧
    ((chunk_transcript 2 tXYZ).enum.map fun p => sectionNote constGen p.1 p.2).get
        ⟨0, by decide⟩ =
      sectionLabel 0 ((chunk_transcript 2 tXYZ).get ⟨0, by decide⟩) ++
        constGen (chunkSummaryPrompt (format_transcript_for_prompt
          ((chunk_transcript 2 tXYZ).get ⟨0, by decide⟩))) :=
  ⟨(chunked_pass_trace 2 constGen true tXYZ).2.1, by decide,
    (chunked_pass_trace 2 constGen true tXYZ).2.2.2.2 0 (by decide)⟩

/-! ## Claim C3 — single-pass vs chunked decision -/

/-- C3 counterexample: a transcript whose estimate equals the budget
(10 words, estimate 13, budget 13) takes the single-pass path — the trace
is one single-pass-template call, not the two calls the chunked path
would issue — contradicting the claim that equality takes the chunked
path. -/
theorem strategy_boundary_counterexample :
    estimate_tokens tTen.text = 13 ∧
    (generate_notes_core 13 constGen false tTen).2 =
      [⟨notePrompt (format_transcript_for_prompt (TranscriptOrChunk.whole tTen)), false⟩] ∧
    (generate_chunked 13 constGen false tTen).2.length = 2 := by
  exact ⟨by decide, rfl, by decide⟩

/-- C3 (amended): the orchestrator takes the single-pass path (one call
on the single-pass note template) when the whole-transcript estimate is
at most the budget — equality included — and the chunked path exactly
when the estimate strictly exceeds the budget. -/
theorem strategy_decision (chunk_size : Nat) (gen : String → String)
    (stream_output : Bool) (t : Transcript) :
    (estimate_tokens t.text ≤ chunk_size →
      generate_notes_core chunk_size gen stream_output t =
        (gen (notePrompt (format_transcript_for_prompt (TranscriptOrChunk.whole t))),
          [⟨notePrompt (format_transcript_for_prompt (TranscriptOrChunk.whole t)),
            stream_output⟩])) ∧
    (estimate_tokens t.text > chunk_size →
      generate_notes_core chunk_size gen stream_output t =
        generate_chunked chunk_size gen stream_output t) := by
  constructor
  · intro h
    unfold generate_notes_core
    rw [if_neg (by omega)]
    rfl
  · intro h
    unfold generate_notes_core
    rw [if_pos h]

/-- C3 (amended) witness: the boundary estimate 13 with budget 13 goes
single-pass; estimate 3 with budget 2 goes chunked. -/
theorem strategy_decision_witness :
    (estimate_tokens tTen.text ≤ 13 ∧
      generate_notes_core 13 constGen false tTen =
        (constGen (notePrompt (format_transcript_for_prompt (TranscriptOrChunk.whole tTen))),
          [⟨notePrompt (format_transcript_for_prompt (TranscriptOrChunk.whole tTen)),
            false⟩])) ∧
    (estimate_tokens tXYZ.text > 2 ∧
      generate_notes_core 2 constGen true tXYZ = generate_chunked 2 constGen true tXYZ) :=
  ⟨⟨by decide, (strategy_decision 13 constGen false tTen).1 (by decide)⟩,
    ⟨by decide, (strategy_decision 2 constGen true tXYZ).2 (by decide)⟩⟩

/-! ## Claim C7 — model-availability matching -/

/-- C7 counterexample: the code tests whether an installed name merely
starts with the requested identifier's base name, not base-name
equality: requesting `"llama3"` is satisfied by an installed
`"llama3.2:3b"` although neither an exact match nor equal base names
(`"llama3"` vs `"llama3.2"`) exist. -/
theorem model_availability_counterexample :
    check_model_available "llama3" ["llama3.2:3b"] = true ∧
    spec_model_available "llama3" ["llama3.2:3b"] = false ∧
    ¬("llama3" ∈ (["llama3.2:3b"] : List String) ∨
        ∃ name ∈ (["llama3.2:3b"] : List String), base_name name = base_name "llama3") := by
  refine ⟨by decide, by decide, by decide⟩

/-- C7 (amended): the availability check returns true iff the requested
identifier appears exactly in the installed list, or some installed name
starts with the requested identifier's base name (its prefix before the
first `':'`); the spec's own examples still hold. -/
theorem model_availability (model : String) (names : List String) :
    check_model_available model names = true ↔
      model ∈ names ∨ ∃ name ∈ names, (base_name model).data <+: name.data := by
  unfold check_model_available startswith
  simp [List.any_eq_true, List.isPrefixOf_iff_prefix]

/-- C7 (amended) witness: the spec's examples, derived through the
characterization. -/
theorem model_availability_witness :
    check_model_available "llama3.2:3b" ["llama3.2:3b"] = true ∧
    check_model_available "llama3.2:3b" ["llama3.2"] = true ∧
    check_model_available "llama3.2:3b" ["mistral:7b"] = false :=
  ⟨(model_availability "llama3.2:3b" ["llama3.2:3b"]).mpr (Or.inl (by decide)),
    (model_availability "llama3.2:3b" ["llama3.2"]).mpr
      (Or.inr ⟨"llama3.2", by decide, by decide⟩),
    by
      rcases h : check_model_available "llama3.2:3b" ["mistral:7b"] with _ | _
      · rfl
      · exact absurd ((model_availability "llama3.2:3b" ["mistral:7b"]).mp h)
          (by decide)⟩

/-! ## Claim C8 — error surfacing -/

/-- C8 counterexample: when the backend listing call fails (backend
unreachable) and when the listing succeeds but the model is absent,
`generate_notes` raises the **same** `"Model ... not found"` error, so
the raised hard error does not distinguish the two cases — the
unreachable backend is reported as a missing model. -/
theorem error_reporting_counterexample :
    generate_notes 8000 "llama3.2:3b" constGen (Except.error "connection refused") false tXYZ =
      Except.error (model_not_found_msg "llama3.2:3b") ∧
    generate_notes 8000 "llama3.2:3b" constGen (Except.ok []) false tXYZ =
      Except.error (model_not_found_msg "llama3.2:3b") := by
  exact ⟨rfl, rfl⟩

/-- C8 (amended): every listing failure and every failed availability
check surfaces as the same fatal `"Model '<m>' not found. Run: ollama
pull <m>"` error (which does suggest the remediation command); the
backend-unreachable case is distinguished only by the
`"Could not connect to Ollama: ..."` console message printed before the
raise, not by the raised error itself. -/
theorem error_reporting (chunk_size : Nat) (model : String) (gen : String → String)
    (stream_output : Bool) (t : Transcript) :
    (∀ e, generate_notes chunk_size model gen (Except.error e) stream_output t =
        Except.error (model_not_found_msg model) ∧
      check_model_log (Except.error e) = some ("Could not connect to Ollama: " ++ e)) ∧
    (∀ names, check_model_available model names = false →
      generate_notes chunk_size model gen (Except.ok names) stream_output t =
        Except.error (model_not_found_msg model) ∧
      check_model_log (Except.ok names) = none) := by
  constructor
  · intro e
    exact ⟨rfl, rfl⟩
  · intro names h
    exact ⟨by simp [generate_notes, check_model_available_full, h], rfl⟩

/-- C8 (amended) witness: a connectivity failure and a listing without
the model, both at concrete inputs. -/
theorem error_reporting_witness :
    generate_notes 5 "llama3.2:3b" constGen (Except.error "boom") true tXYZ =
      Except.error (model_not_found_msg "llama3.2:3b") ∧
    check_model_log (Except.error "boom") =
      some ("Could not connect to Ollama: " ++ "boom") ∧
    check_model_available "llama3.2:3b" ["mistral:7b"] = false ∧
    generate_notes 5 "llama3.2:3b" constGen (Except.ok ["mistral:7b"]) true tXYZ =
      Except.error (model_not_found_msg "llama3.2:3b") :=
  ⟨((error_reporting 5 "llama3.2:3b" constGen true tXYZ).1 "boom").1,
    ((error_reporting 5 "llama3.2:3b" constGen true tXYZ).1 "boom").2,
    by decide,
    ((error_reporting 5 "llama3.2:3b" constGen true tXYZ).2 ["mistral:7b"] (by decide)).1⟩

/-! ## Claim C9 — cache fingerprint -/

/-- C9 counterexample: the digest input concatenates byte-size and
modification time without a separator, so the distinct metadata pairs
(size 1, mtime 23.0) and (size 12, mtime 3.0) produce the identical
digest input `b'hi'123.0` for the same content — hence the identical
key under any digest — although size and mtime both changed. -/
theorem fingerprint_counterexample :
    hash_input [104, 105] 1 "23.0" = hash_input [104, 105] 12 "3.0" ∧
    get_file_hash identityDigest [104, 105] 1 "23.0" =
      get_file_hash identityDigest [104, 105] 12 "3.0" ∧
    (fun digest => get_file_hash digest [104, 105] 1 "23.0") =
      (fun digest => get_file_hash digest [104, 105] 12 "3.0") ∧
    ¬((1 : Nat) = 12 ∧ ("23.0" : String) = "3.0") := by
  refine ⟨by decide, by decide, ?_, by decide⟩
  have h : hash_input [104, 105] 1 "23.0" = hash_input [104, 105] 12 "3.0" := by decide
  funext digest
  unfold get_file_hash
  rw [h]

/-- C9 (amended): the fingerprint is deterministic, but it depends on
byte-size and modification time only through the unseparated string
concatenation `str(size) ++ str(mtime)`: whenever two (size, mtime)
pairs concatenate to the same string, the key is the same for the same
content, whatever digest is used. -/
theorem fingerprint_concat_dependence (md5hex : String → String)
    (first_chunk : List Nat) (s s' : Nat) (m m' : String)
    (h : toString s ++ m = toString s' ++ m') :
    get_file_hash md5hex first_chunk s m = get_file_hash md5hex first_chunk s' m' := by
  unfold get_file_hash hash_input
  rw [String.append_assoc, String.append_assoc, h]

/-- C9 (amended) witness: `1 ++ "23.0"` and `12 ++ "3.0"` concatenate
equally, so the keys agree. -/
theorem fingerprint_concat_dependence_witness :
    toString 1 ++ "23.0" = toString 12 ++ "3.0" ∧
    get_file_hash identityDigest [104, 105] 1 "23.0" =
      get_file_hash identityDigest [104, 105] 12 "3.0" :=
  ⟨by decide,
    fingerprint_concat_dependence identityDigest [104, 105] 1 12 "23.0" "3.0" (by decide)⟩

end LecturePipeline
